import Mathlib

/-!
Verification of the Pinniped upstream-provider reconciliation controller
(`internal/controller/supervisorconfig/upstreamwatcher`).

The controller implementation itself (`upstreamwatcher.go`, the condition
merge logic, the dynamic provider cache and the `controllerlib` sentinel
error) is not part of the source tree given here; only its unit test
(`upstreamwatcher_test.go`) is.  The definitions below are therefore
modelled from the specification (spec.md §3, §4.1-§4.4, §7), with every
observable string and behavior pinned by the assertions of
`upstreamwatcher_test.go`, which is in the source tree and is treated as
authoritative where it and the spec disagree.
-/

namespace Pinniped

/-- Status of a single condition: `True`, `False` or `Unknown` in the
Kubernetes data model. -/
inductive ConditionStatus
  | isTrue
  | isFalse
  | unknown
deriving DecidableEq, Repr

/-- Modelled from the spec: a single condition entry in
`UpstreamOIDCProviderStatus.Conditions` — `{Type, Status, Reason, Message,
LastTransitionTime, ObservedGeneration}` (spec §3).  Time is modelled as a
natural number. -/
structure Condition where
  condType : String
  status : ConditionStatus
  reason : String
  message : String
  lastTransitionTime : Nat
  observedGeneration : Nat
deriving DecidableEq, Repr

/-- Modelled from the spec: a Kubernetes `Secret` as consumed by the Secret
Resolver — namespace, name, declared type, and string-keyed data
(spec §4.1). -/
structure Secret where
  ns : String
  name : String
  secretType : String
  data : List (String × String)
deriving DecidableEq, Repr

/-- Look up a data key in a secret, mirroring Go's `secret.Data[key]` map
access (absent key yields the empty value). -/
def Secret.getData (s : Secret) (k : String) : String :=
  ((s.data.find? (fun p => p.1 == k)).map Prod.snd).getD ""

/-- Modelled from the spec: `UpstreamOIDCProviderSpec` — issuer URL, client
secret reference, additional OAuth scopes (spec §3, test input objects). -/
structure UpstreamSpec where
  issuer : String
  secretName : String
  additionalScopes : List String
deriving DecidableEq, Repr

/-- Modelled from the spec: `UpstreamOIDCProviderStatus` — `Phase` (the
strings `"Ready"` / `"Error"`) and the ordered condition collection
(spec §3). -/
structure UpstreamStatus where
  phase : String
  conditions : List Condition
deriving DecidableEq, Repr

/-- Modelled from the spec: an `UpstreamOIDCProvider` configuration object —
identity (namespace+name), generation, spec and status (spec §3). -/
structure UpstreamProvider where
  ns : String
  name : String
  generation : Nat
  spec : UpstreamSpec
  status : UpstreamStatus
deriving DecidableEq, Repr

/-- Modelled from the spec: the cache entry
`provider.UpstreamOIDCIdentityProvider` — name, client ID, validated
authorization URL, effective scopes (spec §3, test `wantResultingCache`). -/
structure UpstreamOIDCIdentityProvider where
  name : String
  clientID : String
  authorizationURLScheme : String
  authorizationURL : String
  scopes : List String
deriving DecidableEq, Repr

/-- Modelled from the spec: the result of parsing a URL string — the scheme
component plus the full text (spec §4.2; only the scheme is inspected by
the Discovery Client). -/
structure ParsedURL where
  scheme : String
  text : String
deriving DecidableEq, Repr

/-- Hex-digit test used by URL escape validation. -/
def isHexDigit (c : Char) : Bool :=
  c.isDigit || ('a' ≤ c && c ≤ 'f') || ('A' ≤ c && c ≤ 'F')

/-- Modelled from the spec: Go `net/url` escape validation — every `%` must
be followed by two hex digits; on failure the offending escape fragment is
reported (test asserts the error text `invalid URL escape "%"` for the
input `"%"`). -/
def checkEscapes : List Char → Option String
  | [] => none
  | '%' :: c1 :: c2 :: rest =>
      if isHexDigit c1 && isHexDigit c2 then checkEscapes rest
      else some (String.mk ['%', c1, c2])
  | '%' :: rest => some (String.mk ('%' :: rest))
  | _ :: rest => checkEscapes rest

/-- Characters before the `"://"` separator, when present. -/
def schemeChars : List Char → Option (List Char)
  | [] => none
  | ':' :: '/' :: '/' :: _ => some []
  | c :: rest => (schemeChars rest).map (fun cs => c :: cs)

/-- Scheme component of a URL string: the text before `"://"` when that
separator is present, empty otherwise. -/
def urlScheme (s : String) : String :=
  match schemeChars s.data with
  | some cs => String.mk cs
  | none => ""

/-- Modelled from the spec: Go `url.Parse` as used by the Discovery Client
(`upstreamwatcher.go` is not under the given source tree).  Fails with the
Go-style message `parse "<s>": invalid URL escape "<frag>"` on an invalid
percent escape; otherwise returns the parsed URL with its scheme. -/
def parseURL (s : String) : Except String ParsedURL :=
  match checkEscapes s.data with
  | some bad =>
      .error ("parse \"" ++ s ++ "\": invalid URL escape \"" ++ bad ++ "\"")
  | none => .ok { scheme := urlScheme s, text := s }

/-- The fixed required secret type string (test: `secrets.pinniped.dev/oidc-client`). -/
def oidcClientSecretType : String := "secrets.pinniped.dev/oidc-client"

/-- Modelled from the spec: the Secret Resolver error taxonomy —
`SecretNotFound`, `SecretWrongType`, `SecretMissingKeys` (spec §4.1, §7). -/
inductive SecretErr
  | notFound (name : String)
  | wrongType (name : String) (actual : String)
  | missingKeys (name : String)
deriving DecidableEq, Repr

/-- The condition `Reason` token for each Secret Resolver error. -/
def SecretErr.reason : SecretErr → String
  | .notFound _ => "SecretNotFound"
  | .wrongType _ _ => "SecretWrongType"
  | .missingKeys _ => "SecretMissingKeys"

/-- The condition `Message` for each Secret Resolver error.  The message
texts are pinned by `upstreamwatcher_test.go` (cases "missing secret",
"secret has wrong type", "secret is missing key"). -/
def SecretErr.message : SecretErr → String
  | .notFound n => "secret \"" ++ n ++ "\" not found"
  | .wrongType n actual =>
      "referenced Secret \"" ++ n ++ "\" has wrong type \"" ++ actual ++
        "\" (should be \"" ++ oidcClientSecretType ++ "\")"
  | .missingKeys n =>
      "referenced Secret \"" ++ n ++
        "\" is missing required keys [\"clientID\" \"clientSecret\"]"

/-- Client identity material extracted from a valid secret (spec §4.1). -/
structure ClientCreds where
  clientID : String
  clientSecret : String
deriving DecidableEq, Repr

/-- Look up a secret by namespace and name in the store snapshot. -/
def findSecret (secrets : List Secret) (ns name : String) : Option Secret :=
  secrets.find? (fun s => s.ns == ns && s.name == name)

/-- Modelled from the spec: the Secret Resolver (spec §4.1).  Fails with
`SecretNotFound` when absent, `SecretWrongType` when the declared type is
not the fixed required type, `SecretMissingKeys` when either required data
key (`clientID`, `clientSecret`) is absent/empty — reporting the full
required key set; on success returns the client credentials. -/
def validateSecret (secrets : List Secret) (ns name : String) :
    Except SecretErr ClientCreds :=
  match findSecret secrets ns name with
  | none => .error (.notFound name)
  | some s =>
      if s.secretType ≠ oidcClientSecretType then
        .error (.wrongType name s.secretType)
      else if s.getData "clientID" = "" || s.getData "clientSecret" = "" then
        .error (.missingKeys name)
      else
        .ok { clientID := s.getData "clientID",
              clientSecret := s.getData "clientSecret" }

/-- The remote world seen by the Discovery Client: for each issuer URL,
either the issuer is unreachable / returns a non-discovery payload (with an
underlying transport error), or discovery succeeds and advertises an
authorization endpoint string. -/
inductive DiscoveryResult
  | unreachable (err : String)
  | success (authURL : String)
deriving DecidableEq, Repr

/-- Modelled from the spec: the Discovery Client error taxonomy —
`Unreachable`, `InvalidResponse`, each carrying the condition message
(spec §4.2, §7). -/
inductive DiscoveryErr
  | unreachable (msg : String)
  | invalidResponse (msg : String)
deriving DecidableEq, Repr

/-- The condition `Reason` token for each Discovery Client error. -/
def DiscoveryErr.reason : DiscoveryErr → String
  | .unreachable _ => "Unreachable"
  | .invalidResponse _ => "InvalidResponse"

/-- The condition `Message` for each Discovery Client error. -/
def DiscoveryErr.message : DiscoveryErr → String
  | .unreachable m => m
  | .invalidResponse m => m

/-- Modelled from the spec: the Discovery Client (spec §4.2).  Performs
discovery against the issuer; wraps transport failures as `Unreachable`
(message embeds the original error, format pinned by the test case "issuer
is invalid URL"); on success parses the advertised authorization endpoint,
failing with `InvalidResponse` when it does not parse or when its scheme is
not exactly `https` (message formats pinned by the test cases "issuer
returns invalid authorize URL" / "issuer returns insecure authorize URL"). -/
def validateIssuer (world : String → DiscoveryResult) (issuer : String) :
    Except DiscoveryErr ParsedURL :=
  match world issuer with
  | .unreachable err =>
      .error (.unreachable
        ("failed to perform OIDC discovery against \"" ++ issuer ++ "\": " ++ err))
  | .success authURL =>
      match parseURL authURL with
      | .error e =>
          .error (.invalidResponse
            ("failed to parse authorization endpoint URL: " ++ e))
      | .ok u =>
          if u.scheme ≠ "https" then
            .error (.invalidResponse
              ("authorization endpoint URL scheme must be \"https\", not \"" ++
                u.scheme ++ "\""))
          else .ok u

/-- The freshly computed `ClientCredentialsValid` condition, before the
transition-preserving merge (spec §4.3 check 1; success message pinned by
the test as "loaded client credentials"). -/
def clientCredsCondition (r : Except SecretErr ClientCreds) : Condition :=
  match r with
  | .ok _ =>
      { condType := "ClientCredentialsValid", status := .isTrue,
        reason := "Success", message := "loaded client credentials",
        lastTransitionTime := 0, observedGeneration := 0 }
  | .error e =>
      { condType := "ClientCredentialsValid", status := .isFalse,
        reason := e.reason, message := e.message,
        lastTransitionTime := 0, observedGeneration := 0 }

/-- The freshly computed `OIDCDiscoverySucceeded` condition, before the
transition-preserving merge (spec §4.3 check 2; success message pinned by
the test as "discovered issuer configuration"). -/
def discoveryCondition (r : Except DiscoveryErr ParsedURL) : Condition :=
  match r with
  | .ok _ =>
      { condType := "OIDCDiscoverySucceeded", status := .isTrue,
        reason := "Success", message := "discovered issuer configuration",
        lastTransitionTime := 0, observedGeneration := 0 }
  | .error e =>
      { condType := "OIDCDiscoverySucceeded", status := .isFalse,
        reason := e.reason, message := e.message,
        lastTransitionTime := 0, observedGeneration := 0 }

/-- Find the previously persisted condition of a given type. -/
def findCondition (conds : List Condition) (t : String) : Option Condition :=
  conds.find? (fun c => c.condType == t)

/-- Modelled from the spec: the transition-preserving condition merge
(spec §3, design note §9).  `LastTransitionTime` is preserved from the
previous condition of the same type exactly when `Status` is unchanged and
set to the pass time otherwise (or when there was no previous condition);
`ObservedGeneration` is refreshed to the object's current generation on
every sync (pinned by the test case "existing valid upstream"). -/
def mergeCondition (gen now : Nat) (old : Option Condition) (c : Condition) :
    Condition :=
  match old with
  | none => { c with lastTransitionTime := now, observedGeneration := gen }
  | some o =>
      { c with
          lastTransitionTime :=
            if c.status = o.status then o.lastTransitionTime else now,
          observedGeneration := gen }

/-- The fresh `ClientCredentialsValid` condition for an upstream. -/
def credCondition (secrets : List Secret) (u : UpstreamProvider) : Condition :=
  clientCredsCondition (validateSecret secrets u.ns u.spec.secretName)

/-- The fresh `OIDCDiscoverySucceeded` condition for an upstream. -/
def discCondition (world : String → DiscoveryResult) (u : UpstreamProvider) :
    Condition :=
  discoveryCondition (validateIssuer world u.spec.issuer)

/-- The merged condition collection for one reconciliation pass, in the
fixed declaration order `[ClientCredentialsValid, OIDCDiscoverySucceeded]`
(spec §3, §4.3). -/
def mergedConditions (secrets : List Secret) (world : String → DiscoveryResult)
    (now : Nat) (u : UpstreamProvider) : List Condition :=
  [ mergeCondition u.generation now
      (findCondition u.status.conditions (credCondition secrets u).condType)
      (credCondition secrets u),
    mergeCondition u.generation now
      (findCondition u.status.conditions (discCondition world u).condType)
      (discCondition world u) ]

/-- `Phase` is `"Ready"` iff every condition's status is `True`, else
`"Error"` (spec §3). -/
def phaseFor (conds : List Condition) : String :=
  if conds.all (fun c => decide (c.status = .isTrue)) then "Ready" else "Error"

/-- Modelled from the spec: effective scope computation — baseline
`"openid"` unioned with the declared additional scopes, duplicates removed
(spec §4.3). -/
def computeScopes (additionalScopes : List String) : List String :=
  ("openid" :: additionalScopes).dedup

/-- Outcome of reconciling a single upstream: the configuration object with
its freshly persisted status, and the cache entry when validation
succeeded. -/
structure ReconcileResult where
  updated : UpstreamProvider
  cacheEntry : Option UpstreamOIDCIdentityProvider
deriving DecidableEq, Repr

/-- Modelled from the spec: the Provider Reconciler (spec §4.3).  Runs both
checks unconditionally, merges the two conditions in declaration order,
computes the phase, and on full success builds the validated cache entry
from the resolved client ID, the validated authorization URL and the
effective scopes. -/
def validateUpstream (secrets : List Secret) (world : String → DiscoveryResult)
    (now : Nat) (u : UpstreamProvider) : ReconcileResult :=
  let conds := mergedConditions secrets world now u
  { updated := { u with status := { phase := phaseFor conds, conditions := conds } },
    cacheEntry :=
      match validateSecret secrets u.ns u.spec.secretName,
            validateIssuer world u.spec.issuer with
      | .ok creds, .ok authURL =>
          some { name := u.name, clientID := creds.clientID,
                 authorizationURLScheme := authURL.scheme,
                 authorizationURL := authURL.text,
                 scopes := computeScopes u.spec.additionalScopes }
      | _, _ => none }

/-- Modelled from the spec: the batch-level sentinel — the distinguished
`SyntheticRequeue` signal, a single fixed value carrying no per-provider
detail (spec §4.4, §7; `controllerlib.ErrSyntheticRequeue` in the test). -/
inductive SyncErr
  | syntheticRequeue
deriving DecidableEq, Repr

/-- The full outcome of a sync pass: updated configuration objects, the new
cache snapshot, and the optional batch-level error. -/
structure SyncResult where
  upstreams : List UpstreamProvider
  cache : List UpstreamOIDCIdentityProvider
  err : Option SyncErr
deriving DecidableEq, Repr

/-- Modelled from the spec: the Reconciliation Driver's sync pass
(spec §4.4).  Reconciles every declared provider, collects the
successfully validated entries into a fresh snapshot which replaces the
cache wholesale (the previous cache contents are ignored), and returns the
`SyntheticRequeue` sentinel iff at least one provider failed validation. -/
def sync (secrets : List Secret) (world : String → DiscoveryResult) (now : Nat)
    (oldCache : List UpstreamOIDCIdentityProvider)
    (upstreams : List UpstreamProvider) : SyncResult :=
  let _ := oldCache
  let results := upstreams.map (validateUpstream secrets world now)
  { upstreams := results.map (fun r => r.updated),
    cache := results.filterMap (fun r => r.cacheEntry),
    err :=
      if results.any (fun r => r.cacheEntry.isNone) then
        some .syntheticRequeue
      else none }

/-- Character-list version of "starts with". -/
def leadsWith : List Char → List Char → Bool
  | [], _ => true
  | _ :: _, [] => false
  | a :: as, b :: bs => a == b && leadsWith as bs

/-- Substring test on strings (used to state facts about messages). -/
def strContains (hay needle : String) : Bool :=
  hay.data.tails.any (fun t => leadsWith needle.data t)

/-- Concrete fixture: the valid client secret of `upstreamwatcher_test.go`. -/
def testSecret : Secret :=
  { ns := "test-namespace", name := "test-client-secret",
    secretType := oidcClientSecretType,
    data := [("clientID", "test-oidc-client-id"),
             ("clientSecret", "test-oidc-client-secret")] }

/-- Concrete fixture: a world in which every issuer answers discovery with
the valid authorization endpoint of the test issuer. -/
def goodWorld : String → DiscoveryResult :=
  fun _ => .success "https://example.com/authorize"

/-- Concrete fixture: a world advertising the unparseable authorization
endpoint `"%"` (test case "issuer returns invalid authorize URL"). -/
def invalidAuthWorld : String → DiscoveryResult :=
  fun _ => .success "%"

/-- Concrete fixture: a world advertising an `http`-scheme authorization
endpoint (test case "issuer returns insecure authorize URL"). -/
def insecureAuthWorld : String → DiscoveryResult :=
  fun _ => .success "http://example.com/authorize"

/-- Concrete fixture: the upstream of the test case "upstream becomes
valid" — previously `Error` with both conditions `False` at time 3, and
`openid` declared redundantly among the additional scopes. -/
def becomesValidUpstream : UpstreamProvider :=
  { ns := "test-namespace", name := "test-name", generation := 0,
    spec := { issuer := "https://issuer.test", secretName := "test-client-secret",
              additionalScopes := ["scope1", "scope2", "scope3", "xyz", "openid"] },
    status := { phase := "Error",
                conditions :=
                  [ { condType := "ClientCredentialsValid", status := .isFalse,
                      reason := "SomeError1", message := "some previous error 1",
                      lastTransitionTime := 3, observedGeneration := 0 },
                    { condType := "OIDCDiscoverySucceeded", status := .isFalse,
                      reason := "SomeError2", message := "some previous error 2",
                      lastTransitionTime := 3, observedGeneration := 0 } ] } }

/-- Concrete fixture: a freshly declared upstream with no status yet
(test case "missing secret"). -/
def freshUpstream : UpstreamProvider :=
  { ns := "test-namespace", name := "test-name", generation := 0,
    spec := { issuer := "https://issuer.test", secretName := "test-client-secret",
              additionalScopes := ["scope1", "scope2", "scope3"] },
    status := { phase := "", conditions := [] } }

/-- Concrete fixture: a secret of the required type with no data keys
(test case "secret is missing key"). -/
def keylessSecret : Secret :=
  { ns := "test-namespace", name := "test-client-secret",
    secretType := oidcClientSecretType, data := [] }

/-- Concrete fixture: a secret of a wrong declared type
(test case "secret has wrong type"). -/
def wrongTypeSecret : Secret :=
  { ns := "test-namespace", name := "test-client-secret",
    secretType := "some-other-type",
    data := [("clientID", "test-oidc-client-id"),
             ("clientSecret", "test-oidc-client-secret")] }

/-- Concrete fixture: the cache entry produced for `becomesValidUpstream` —
`openid` appears exactly once although it was also declared explicitly. -/
def scopesCacheEntry : UpstreamOIDCIdentityProvider :=
  { name := "test-name", clientID := "test-oidc-client-id",
    authorizationURLScheme := "https",
    authorizationURL := "https://example.com/authorize",
    scopes := ["scope1", "scope2", "scope3", "xyz", "openid"] }

/-- Concrete fixture: the pre-seeded cache entry of the test harness,
asserted to be dropped by the wholesale replacement. -/
def initialCacheEntry : UpstreamOIDCIdentityProvider :=
  { name := "initial-entry", clientID := "", authorizationURLScheme := "",
    authorizationURL := "", scopes := [] }

/-- Concrete fixture: the validated authorization endpoint advertised by
the test issuer. -/
def exampleAuthURL : ParsedURL :=
  { scheme := "https", text := "https://example.com/authorize" }

/-- Concrete fixture: the merged `ClientCredentialsValid` condition produced
at pass time 5 when the credentials check flips from `False` to `True`. -/
def validCredCondition : Condition :=
  { condType := "ClientCredentialsValid", status := .isTrue, reason := "Success",
    message := "loaded client credentials", lastTransitionTime := 5,
    observedGeneration := 0 }

theorem mergeCondition_condType (gen now : Nat) (old : Option Condition)
    (c : Condition) : (mergeCondition gen now old c).condType = c.condType := by
  cases old <;> rfl

theorem mergeCondition_status (gen now : Nat) (old : Option Condition)
    (c : Condition) : (mergeCondition gen now old c).status = c.status := by
  cases old <;> rfl

theorem mergeCondition_reason (gen now : Nat) (old : Option Condition)
    (c : Condition) : (mergeCondition gen now old c).reason = c.reason := by
  cases old <;> rfl

theorem mergeCondition_message (gen now : Nat) (old : Option Condition)
    (c : Condition) : (mergeCondition gen now old c).message = c.message := by
  cases old <;> rfl

theorem mergeCondition_gen (gen now : Nat) (old : Option Condition)
    (c : Condition) : (mergeCondition gen now old c).observedGeneration = gen := by
  cases old <;> rfl

theorem mergeCondition_ltt_same (gen now : Nat) (o c : Condition)
    (h : c.status = o.status) :
    (mergeCondition gen now (some o) c).lastTransitionTime = o.lastTransitionTime := by
  simp [mergeCondition, h]

theorem mergeCondition_ltt_diff (gen now : Nat) (o c : Condition)
    (h : c.status ≠ o.status) :
    (mergeCondition gen now (some o) c).lastTransitionTime = now := by
  simp [mergeCondition, h]

theorem mergeCondition_merge_self (gen n1 n2 : Nat) (old : Option Condition)
    (c : Condition) :
    mergeCondition gen n2 (some (mergeCondition gen n1 old c)) c
      = mergeCondition gen n1 old c := by
  cases old with
  | none => simp [mergeCondition]
  | some o => by_cases h : c.status = o.status <;> simp [mergeCondition, h]

theorem credCondition_condType (secrets : List Secret) (u : UpstreamProvider) :
    (credCondition secrets u).condType = "ClientCredentialsValid" := by
  cases hv : validateSecret secrets u.ns u.spec.secretName <;>
    simp [credCondition, clientCredsCondition, hv]

theorem discCondition_condType (world : String → DiscoveryResult)
    (u : UpstreamProvider) :
    (discCondition world u).condType = "OIDCDiscoverySucceeded" := by
  cases hv : validateIssuer world u.spec.issuer <;>
    simp [discCondition, discoveryCondition, hv]

theorem findCondition_cons_self (c : Condition) (rest : List Condition)
    (t : String) (h : c.condType = t) :
    findCondition (c :: rest) t = some c := by
  simp [findCondition, List.find?_cons_of_pos, h]

theorem findCondition_cons_of_ne (c : Condition) (rest : List Condition)
    (t : String) (h : c.condType ≠ t) :
    findCondition (c :: rest) t = findCondition rest t := by
  simp [findCondition, List.find?_cons_of_neg, h]

theorem validateUpstream_conditions (secrets : List Secret)
    (world : String → DiscoveryResult) (now : Nat) (u : UpstreamProvider) :
    (validateUpstream secrets world now u).updated.status.conditions
      = mergedConditions secrets world now u := rfl

theorem validateUpstream_phase (secrets : List Secret)
    (world : String → DiscoveryResult) (now : Nat) (u : UpstreamProvider) :
    (validateUpstream secrets world now u).updated.status.phase
      = phaseFor (mergedConditions secrets world now u) := rfl

theorem mergedConditions_stable (secrets : List Secret)
    (world : String → DiscoveryResult) (n1 n2 : Nat) (u : UpstreamProvider)
    (p : String) :
    mergedConditions secrets world n2
      { u with status := { phase := p,
                           conditions := mergedConditions secrets world n1 u } }
      = mergedConditions secrets world n1 u := by
  have hcu : credCondition secrets
      { u with status := { phase := p,
                           conditions := mergedConditions secrets world n1 u } }
      = credCondition secrets u := rfl
  have hdu : discCondition world
      { u with status := { phase := p,
                           conditions := mergedConditions secrets world n1 u } }
      = discCondition world u := rfl
  have hm1 : (mergeCondition u.generation n1
        (findCondition u.status.conditions (credCondition secrets u).condType)
        (credCondition secrets u)).condType = "ClientCredentialsValid" := by
    rw [mergeCondition_condType, credCondition_condType]
  have hm2 : (mergeCondition u.generation n1
        (findCondition u.status.conditions (discCondition world u).condType)
        (discCondition world u)).condType = "OIDCDiscoverySucceeded" := by
    rw [mergeCondition_condType, discCondition_condType]
  have econd : ({ u with status := { phase := p,
                                     conditions := mergedConditions secrets world n1 u } } :
      UpstreamProvider).status.conditions = mergedConditions secrets world n1 u := rfl
  have egen : ({ u with status := { phase := p,
                                    conditions := mergedConditions secrets world n1 u } } :
      UpstreamProvider).generation = u.generation := rfl
  rw [mergedConditions, hcu, hdu, econd, egen, mergedConditions]
  rw [findCondition_cons_self _ _ _ (by rw [hm1, credCondition_condType])]
  rw [findCondition_cons_of_ne _ _ _ (by rw [hm1, discCondition_condType]; decide),
      findCondition_cons_self _ _ _ (by rw [hm2, discCondition_condType])]
  rw [mergeCondition_merge_self, mergeCondition_merge_self]

theorem validateUpstream_stable (secrets : List Secret)
    (world : String → DiscoveryResult) (n1 n2 : Nat) (u : UpstreamProvider) :
    (validateUpstream secrets world n2 (validateUpstream secrets world n1 u).updated).updated
      = (validateUpstream secrets world n1 u).updated := by
  show ({ (validateUpstream secrets world n1 u).updated with
      status := { phase := phaseFor (mergedConditions secrets world n2
                    (validateUpstream secrets world n1 u).updated),
                  conditions := mergedConditions secrets world n2
                    (validateUpstream secrets world n1 u).updated } } :
      UpstreamProvider) = _
  rw [show (validateUpstream secrets world n1 u).updated
      = { u with status := { phase := phaseFor (mergedConditions secrets world n1 u),
                             conditions := mergedConditions secrets world n1 u } }
      from rfl]
  rw [mergedConditions_stable]

theorem validateUpstream_cacheEntry_stable (secrets : List Secret)
    (world : String → DiscoveryResult) (n1 n2 : Nat) (u : UpstreamProvider) :
    (validateUpstream secrets world n2 (validateUpstream secrets world n1 u).updated).cacheEntry
      = (validateUpstream secrets world n1 u).cacheEntry := rfl

theorem list_any_map {α β : Type} (l : List α) (f : α → β) (p : β → Bool) :
    (l.map f).any p = l.any (fun a => p (f a)) := by
  induction l with
  | nil => rfl
  | cons a t ih => simp [List.any_cons, ih]

theorem sync_upstreams (secrets : List Secret) (world : String → DiscoveryResult)
    (now : Nat) (oldCache : List UpstreamOIDCIdentityProvider)
    (ups : List UpstreamProvider) :
    (sync secrets world now oldCache ups).upstreams
      = (ups.map (validateUpstream secrets world now)).map (fun r => r.updated) := rfl

theorem sync_cache_eq (secrets : List Secret) (world : String → DiscoveryResult)
    (now : Nat) (oldCache : List UpstreamOIDCIdentityProvider)
    (ups : List UpstreamProvider) :
    (sync secrets world now oldCache ups).cache
      = (ups.map (validateUpstream secrets world now)).filterMap (fun r => r.cacheEntry) := rfl

theorem sync_err_eq (secrets : List Secret) (world : String → DiscoveryResult)
    (now : Nat) (oldCache : List UpstreamOIDCIdentityProvider)
    (ups : List UpstreamProvider) :
    (sync secrets world now oldCache ups).err
      = (if (ups.map (validateUpstream secrets world now)).any
            (fun r => r.cacheEntry.isNone)
         then some SyncErr.syntheticRequeue else none) := rfl

/-- C1: for every provider and every condition type, a sync pass advances
that condition's `LastTransitionTime` only when its `Status` differs from
the previously persisted condition of the same type — in which case the
new `LastTransitionTime` equals the pass time, which is ≥ the old time
whenever the old time was ≤ the pass time — while `Reason`/`Message` may
change without advancing the timestamp as long as `Status` is unchanged,
and `ObservedGeneration` is refreshed to the object's current generation on
every sync regardless. -/
theorem condition_transition_semantics (secrets : List Secret)
    (world : String → DiscoveryResult) (now : Nat) (u : UpstreamProvider)
    (c : Condition)
    (hc : c ∈ (validateUpstream secrets world now u).updated.status.conditions) :
    c.observedGeneration = u.generation ∧
    ∀ o, findCondition u.status.conditions c.condType = some o →
      (c.status = o.status → c.lastTransitionTime = o.lastTransitionTime) ∧
      (c.status ≠ o.status →
        c.lastTransitionTime = now ∧
        (o.lastTransitionTime ≤ now → o.lastTransitionTime ≤ c.lastTransitionTime)) := by
  rw [validateUpstream_conditions, mergedConditions] at hc
  simp only [List.mem_cons, List.not_mem_nil, or_false] at hc
  rcases hc with hc | hc
  all_goals
    subst hc
    refine ⟨mergeCondition_gen _ _ _ _, ?_⟩
    intro o ho
    rw [mergeCondition_condType] at ho
    rw [ho]
    constructor
    · intro hs
      rw [mergeCondition_status] at hs
      exact mergeCondition_ltt_same _ _ _ _ hs
    · intro hs
      rw [mergeCondition_status] at hs
      refine ⟨mergeCondition_ltt_diff _ _ _ _ hs, ?_⟩
      intro hle
      rw [mergeCondition_ltt_diff _ _ _ _ hs]
      exact hle

/-- Witness for the transition-time semantics: in the "upstream becomes
valid" scenario the merged credentials condition flips `False → True` at
pass time 5, later than the previous transition time 3. -/
theorem condition_transition_semantics_witness :
    (validCredCondition
        ∈ (validateUpstream [testSecret] goodWorld 5
            becomesValidUpstream).updated.status.conditions) ∧
    (validCredCondition.observedGeneration = becomesValidUpstream.generation ∧
     ∀ o, findCondition becomesValidUpstream.status.conditions
            validCredCondition.condType = some o →
       (validCredCondition.status = o.status →
          validCredCondition.lastTransitionTime = o.lastTransitionTime) ∧
       (validCredCondition.status ≠ o.status →
          validCredCondition.lastTransitionTime = 5 ∧
          (o.lastTransitionTime ≤ 5 →
            o.lastTransitionTime ≤ validCredCondition.lastTransitionTime))) :=
  ⟨by decide,
   condition_transition_semantics [testSecret] goodWorld 5 becomesValidUpstream
     validCredCondition (by decide)⟩

/-- C2: running two consecutive sync passes with no external state change
yields identical persisted statuses on the second pass (same conditions,
with `LastTransitionTime` frozen and `ObservedGeneration` refreshed to the
unchanged generation), and both passes return the identical error
result. -/
theorem sync_idempotent (secrets : List Secret) (world : String → DiscoveryResult)
    (n1 n2 : Nat) (oc1 oc2 : List UpstreamOIDCIdentityProvider)
    (ups : List UpstreamProvider) :
    (sync secrets world n2 oc2 (sync secrets world n1 oc1 ups).upstreams).upstreams
      = (sync secrets world n1 oc1 ups).upstreams ∧
    (sync secrets world n2 oc2 (sync secrets world n1 oc1 ups).upstreams).err
      = (sync secrets world n1 oc1 ups).err := by
  constructor
  · rw [sync_upstreams, sync_upstreams, List.map_map, List.map_map, List.map_map,
      List.map_map]
    apply List.map_congr_left
    intro u _
    exact validateUpstream_stable secrets world n1 n2 u
  · rw [sync_err_eq, sync_err_eq, sync_upstreams, List.map_map, List.map_map,
      list_any_map, list_any_map]
    rfl

theorem computeScopes_toFinset (l : List String) :
    (computeScopes l).toFinset = insert "openid" l.toFinset := by
  apply Finset.ext
  intro a
  simp [computeScopes, List.mem_toFinset, List.mem_dedup]

theorem computeScopes_count_openid (l : List String) :
    (computeScopes l).count "openid" = 1 :=
  List.count_eq_one_of_mem (List.nodup_dedup _)
    (List.mem_dedup.mpr (List.mem_cons_self _ _))

/-- C3: for every declared provider that validates successfully, the cache
entry's effective scopes are the set union of the baseline `openid` with
the declared additional scopes, duplicates removed, with `openid` present
exactly once even when it was also declared explicitly. -/
theorem cache_entry_scopes (secrets : List Secret)
    (world : String → DiscoveryResult) (now : Nat) (u : UpstreamProvider)
    (e : UpstreamOIDCIdentityProvider)
    (h : (validateUpstream secrets world now u).cacheEntry = some e) :
    e.scopes.toFinset = insert "openid" u.spec.additionalScopes.toFinset ∧
    e.scopes.count "openid" = 1 := by
  have hs : e.scopes = computeScopes u.spec.additionalScopes := by
    cases hv : validateSecret secrets u.ns u.spec.secretName with
    | error ee => simp [validateUpstream, hv] at h
    | ok creds =>
      cases hd : validateIssuer world u.spec.issuer with
      | error de => simp [validateUpstream, hv, hd] at h
      | ok pu =>
        simp [validateUpstream, hv, hd] at h
        rw [← h]
  rw [hs]
  exact ⟨computeScopes_toFinset _, computeScopes_count_openid _⟩

/-- Witness for the scope computation: the "upstream becomes valid"
fixture declares `["scope1","scope2","scope3","xyz","openid"]` and gets
exactly the set `{"openid","scope1","scope2","scope3","xyz"}`. -/
theorem cache_entry_scopes_witness :
    ((validateUpstream [testSecret] goodWorld 5 becomesValidUpstream).cacheEntry
        = some scopesCacheEntry) ∧
    (scopesCacheEntry.scopes.toFinset
        = insert "openid" becomesValidUpstream.spec.additionalScopes.toFinset ∧
     scopesCacheEntry.scopes.count "openid" = 1) :=
  ⟨by decide,
   cache_entry_scopes [testSecret] goodWorld 5 becomesValidUpstream
     scopesCacheEntry (by decide)⟩

/-- C4: the reconciler always runs both checks independently: when the
referenced secret is absent but discovery succeeds, the persisted phase is
`Error`, `ClientCredentialsValid` is `False`/`SecretNotFound` while
`OIDCDiscoverySucceeded` is `True`/`Success`, the cache holds no entry for
the provider, and the sync returns the `SyntheticRequeue` signal. -/
theorem checks_independent (secrets : List Secret)
    (world : String → DiscoveryResult) (now : Nat)
    (oldCache : List UpstreamOIDCIdentityProvider) (u : UpstreamProvider)
    (pu : ParsedURL)
    (hsec : findSecret secrets u.ns u.spec.secretName = none)
    (hd : validateIssuer world u.spec.issuer = .ok pu) :
    (validateUpstream secrets world now u).updated.status.phase = "Error" ∧
    ((validateUpstream secrets world now u).updated.status.conditions.map
        (fun c => (c.condType, c.status, c.reason)))
      = [("ClientCredentialsValid", ConditionStatus.isFalse, "SecretNotFound"),
         ("OIDCDiscoverySucceeded", ConditionStatus.isTrue, "Success")] ∧
    (validateUpstream secrets world now u).cacheEntry = none ∧
    (sync secrets world now oldCache [u]).cache = [] ∧
    (sync secrets world now oldCache [u]).err = some SyncErr.syntheticRequeue := by
  have hv : validateSecret secrets u.ns u.spec.secretName
      = .error (.notFound u.spec.secretName) := by
    simp [validateSecret, hsec]
  refine ⟨?_, ?_, ?_, ?_, ?_⟩
  · rw [validateUpstream_phase, mergedConditions, phaseFor]
    simp [mergeCondition_status, credCondition, clientCredsCondition, hv]
  · rw [validateUpstream_conditions, mergedConditions]
    simp [mergeCondition_condType, mergeCondition_status, mergeCondition_reason,
      credCondition, discCondition, clientCredsCondition, discoveryCondition,
      hv, hd, SecretErr.reason]
  · simp [validateUpstream, hv, hd]
  · simp [sync_cache_eq, validateUpstream, hv, hd]
  · simp [sync_err_eq, validateUpstream, hv, hd]

/-- Witness for the independence of the two checks: a fresh upstream with
no secret in the store but a reachable issuer. -/
theorem checks_independent_witness :
    (findSecret [] freshUpstream.ns freshUpstream.spec.secretName = none) ∧
    (validateIssuer goodWorld freshUpstream.spec.issuer = .ok exampleAuthURL) ∧
    ((validateUpstream [] goodWorld 7 freshUpstream).updated.status.phase = "Error" ∧
     ((validateUpstream [] goodWorld 7 freshUpstream).updated.status.conditions.map
         (fun c => (c.condType, c.status, c.reason)))
       = [("ClientCredentialsValid", ConditionStatus.isFalse, "SecretNotFound"),
          ("OIDCDiscoverySucceeded", ConditionStatus.isTrue, "Success")] ∧
     (validateUpstream [] goodWorld 7 freshUpstream).cacheEntry = none ∧
     (sync [] goodWorld 7 [initialCacheEntry] [freshUpstream]).cache = [] ∧
     (sync [] goodWorld 7 [initialCacheEntry] [freshUpstream]).err
       = some SyncErr.syntheticRequeue) :=
  ⟨rfl, rfl,
   checks_independent [] goodWorld 7 [initialCacheEntry] freshUpstream
     exampleAuthURL rfl rfl⟩

/-- C5: after every sync pass the cache holds exactly the providers that
validated successfully in that pass, regardless of the previous cache
contents (wholesale replacement, also for an empty declared set), and the
pass returns the one fixed `SyntheticRequeue` sentinel iff at least one
provider failed validation, returning no error when none failed. -/
theorem cache_wholesale_and_requeue (secrets : List Secret)
    (world : String → DiscoveryResult) (now : Nat)
    (oldCache : List UpstreamOIDCIdentityProvider)
    (ups : List UpstreamProvider) :
    ((sync secrets world now oldCache ups).cache
        = (ups.map (validateUpstream secrets world now)).filterMap
            (fun r => r.cacheEntry)) ∧
    (ups = [] → (sync secrets world now oldCache ups).cache = []) ∧
    ((sync secrets world now oldCache ups).err = some SyncErr.syntheticRequeue ↔
        ∃ u ∈ ups, (validateUpstream secrets world now u).cacheEntry = none) ∧
    ((∀ u ∈ ups, (validateUpstream secrets world now u).cacheEntry ≠ none) →
        (sync secrets world now oldCache ups).err = none) := by
  refine ⟨sync_cache_eq _ _ _ _ _, ?_, ?_, ?_⟩
  · rintro rfl
    rfl
  · rw [sync_err_eq, list_any_map]
    constructor
    · intro he
      have hany : ups.any
          (fun a => ((validateUpstream secrets world now a).cacheEntry).isNone)
          = true := by
        by_contra hb
        simp [hb] at he
      rw [List.any_eq_true] at hany
      obtain ⟨u, hu, hn⟩ := hany
      exact ⟨u, hu, Option.isNone_iff_eq_none.mp hn⟩
    · rintro ⟨u, hu, hn⟩
      have hany : ups.any
          (fun a => ((validateUpstream secrets world now a).cacheEntry).isNone)
          = true :=
        List.any_eq_true.mpr ⟨u, hu, by rw [hn]; rfl⟩
      simp [hany]
  · intro hall
    rw [sync_err_eq, list_any_map]
    have hany : ups.any
        (fun a => ((validateUpstream secrets world now a).cacheEntry).isNone)
        = false := by
      rw [List.any_eq_false]
      intro x hx
      simp only [Option.isNone_iff_eq_none]
      exact hall x hx
    simp [hany]

/-- Witness for the wholesale cache replacement: a pre-seeded cache entry
is dropped when a failing provider is declared. -/
theorem cache_wholesale_and_requeue_witness :
    (((sync [] goodWorld 7 [initialCacheEntry] [freshUpstream]).cache
        = ([freshUpstream].map (validateUpstream [] goodWorld 7)).filterMap
            (fun r => r.cacheEntry)) ∧
     ([freshUpstream] = ([] : List UpstreamProvider) →
        (sync [] goodWorld 7 [initialCacheEntry] [freshUpstream]).cache = []) ∧
     ((sync [] goodWorld 7 [initialCacheEntry] [freshUpstream]).err
          = some SyncErr.syntheticRequeue ↔
        ∃ u ∈ [freshUpstream],
          (validateUpstream [] goodWorld 7 u).cacheEntry = none) ∧
     ((∀ u ∈ [freshUpstream],
          (validateUpstream [] goodWorld 7 u).cacheEntry ≠ none) →
        (sync [] goodWorld 7 [initialCacheEntry] [freshUpstream]).err = none)) ∧
    (sync [] goodWorld 7 [initialCacheEntry] [freshUpstream]).err
      = some SyncErr.syntheticRequeue :=
  ⟨cache_wholesale_and_requeue [] goodWorld 7 [initialCacheEntry] [freshUpstream],
   by decide⟩

/-- C6: after every sync pass the persisted condition collection has
exactly one entry per type, in the fixed declaration order
`[ClientCredentialsValid, OIDCDiscoverySucceeded]`, and the phase is
`"Ready"` iff every condition's status is `True`, otherwise `"Error"`. -/
theorem conditions_shape (secrets : List Secret)
    (world : String → DiscoveryResult) (now : Nat) (u : UpstreamProvider) :
    ((validateUpstream secrets world now u).updated.status.conditions.map
        (fun c => c.condType))
      = ["ClientCredentialsValid", "OIDCDiscoverySucceeded"] ∧
    ((validateUpstream secrets world now u).updated.status.phase = "Ready" ↔
        ∀ c ∈ (validateUpstream secrets world now u).updated.status.conditions,
          c.status = ConditionStatus.isTrue) ∧
    ((validateUpstream secrets world now u).updated.status.phase = "Ready" ∨
        (validateUpstream secrets world now u).updated.status.phase = "Error") := by
  refine ⟨?_, ?_, ?_⟩
  · rw [validateUpstream_conditions, mergedConditions]
    simp [mergeCondition_condType, credCondition_condType, discCondition_condType]
  · rw [validateUpstream_phase, validateUpstream_conditions, phaseFor]
    by_cases hall : (mergedConditions secrets world now u).all
        (fun c => decide (c.status = ConditionStatus.isTrue)) = true
    · rw [if_pos hall]
      constructor
      · intro _
        rw [List.all_eq_true] at hall
        intro c hc
        simpa using hall c hc
      · intro _
        rfl
    · rw [if_neg hall]
      constructor
      · intro habs
        exact absurd habs (by decide)
      · intro hcs
        apply absurd _ hall
        rw [List.all_eq_true]
        intro c hc
        simpa using hcs c hc
  · rw [validateUpstream_phase, phaseFor]
    by_cases hall : (mergedConditions secrets world now u).all
        (fun c => decide (c.status = ConditionStatus.isTrue)) = true
    · left
      rw [if_pos hall]
    · right
      rw [if_neg hall]

/-- Witness for the condition-collection shape at a concrete upstream. -/
theorem conditions_shape_witness :
    (((validateUpstream [testSecret] goodWorld 5 freshUpstream).updated.status.conditions.map
        (fun c => c.condType))
      = ["ClientCredentialsValid", "OIDCDiscoverySucceeded"] ∧
    ((validateUpstream [testSecret] goodWorld 5 freshUpstream).updated.status.phase
        = "Ready" ↔
        ∀ c ∈ (validateUpstream [testSecret] goodWorld 5
                freshUpstream).updated.status.conditions,
          c.status = ConditionStatus.isTrue) ∧
    ((validateUpstream [testSecret] goodWorld 5 freshUpstream).updated.status.phase
        = "Ready" ∨
        (validateUpstream [testSecret] goodWorld 5 freshUpstream).updated.status.phase
        = "Error")) ∧
    (validateUpstream [testSecret] goodWorld 5 freshUpstream).updated.status.phase
      = "Ready" :=
  ⟨conditions_shape [testSecret] goodWorld 5 freshUpstream, by decide⟩

/-- C7: when a discovery response advertises an authorization endpoint,
validation fails with `InvalidResponse` when the endpoint does not parse as
a URL (message embeds the parse error text), and fails with
`InvalidResponse` when the parsed scheme is not exactly `https` (message
states the required scheme and the scheme found); in both cases the
`OIDCDiscoverySucceeded` condition is `False` with reason
`InvalidResponse`. -/
theorem authorize_endpoint_validation (world : String → DiscoveryResult)
    (issuer authURL : String) (h : world issuer = .success authURL) :
    (∀ e, parseURL authURL = .error e →
      validateIssuer world issuer
        = .error (.invalidResponse
            ("failed to parse authorization endpoint URL: " ++ e)) ∧
      (discoveryCondition (validateIssuer world issuer)).status
          = ConditionStatus.isFalse ∧
      (discoveryCondition (validateIssuer world issuer)).reason
          = "InvalidResponse" ∧
      (discoveryCondition (validateIssuer world issuer)).message
          = "failed to parse authorization endpoint URL: " ++ e) ∧
    (∀ pu, parseURL authURL = .ok pu → pu.scheme ≠ "https" →
      validateIssuer world issuer
        = .error (.invalidResponse
            ("authorization endpoint URL scheme must be \"https\", not \"" ++
              pu.scheme ++ "\"")) ∧
      (discoveryCondition (validateIssuer world issuer)).status
          = ConditionStatus.isFalse ∧
      (discoveryCondition (validateIssuer world issuer)).reason
          = "InvalidResponse" ∧
      (discoveryCondition (validateIssuer world issuer)).message
          = "authorization endpoint URL scheme must be \"https\", not \"" ++
              pu.scheme ++ "\"") := by
  constructor
  · intro e he
    have hv : validateIssuer world issuer
        = .error (.invalidResponse
            ("failed to parse authorization endpoint URL: " ++ e)) := by
      simp [validateIssuer, h, he]
    rw [hv]
    exact ⟨rfl, rfl, rfl, rfl⟩
  · intro pu hp hs
    have hv : validateIssuer world issuer
        = .error (.invalidResponse
            ("authorization endpoint URL scheme must be \"https\", not \"" ++
              pu.scheme ++ "\"")) := by
      simp [validateIssuer, h, hp, hs]
    rw [hv]
    exact ⟨rfl, rfl, rfl, rfl⟩

/-- Witness for the authorization-endpoint validation: the advertised
endpoint `"%"` fails to parse and `http://example.com/authorize` has the
wrong scheme. -/
theorem authorize_endpoint_validation_witness :
    (invalidAuthWorld "https://issuer.test" = .success "%" ∧
     parseURL "%" = .error "parse \"%\": invalid URL escape \"%\"" ∧
     validateIssuer invalidAuthWorld "https://issuer.test"
       = .error (.invalidResponse
           ("failed to parse authorization endpoint URL: " ++
             "parse \"%\": invalid URL escape \"%\""))) ∧
    (insecureAuthWorld "https://issuer.test"
        = .success "http://example.com/authorize" ∧
     parseURL "http://example.com/authorize"
        = .ok { scheme := "http", text := "http://example.com/authorize" } ∧
     validateIssuer insecureAuthWorld "https://issuer.test"
       = .error (.invalidResponse
           ("authorization endpoint URL scheme must be \"https\", not \"" ++
             "http" ++ "\""))) :=
  ⟨⟨rfl, rfl,
    ((authorize_endpoint_validation invalidAuthWorld "https://issuer.test" "%"
        rfl).1 "parse \"%\": invalid URL escape \"%\"" rfl).1⟩,
   ⟨rfl, rfl,
    ((authorize_endpoint_validation insecureAuthWorld "https://issuer.test"
        "http://example.com/authorize" rfl).2
      { scheme := "http", text := "http://example.com/authorize" } rfl
      (by decide)).1⟩⟩

/-- C8: for every secret of the required type missing at least one of the
required data keys, the resolver fails with `SecretMissingKeys` and the
message lists the fixed full key set `["clientID" "clientSecret"]`
regardless of which key is missing; with both keys present the resolver
succeeds, so the error is not triggered. -/
theorem secret_missing_keys (secrets : List Secret) (ns name : String)
    (s : Secret) (hfound : findSecret secrets ns name = some s)
    (htype : s.secretType = oidcClientSecretType) :
    ((s.getData "clientID" = "" ∨ s.getData "clientSecret" = "") →
      validateSecret secrets ns name = .error (.missingKeys name) ∧
      (SecretErr.missingKeys name).message
        = "referenced Secret \"" ++ name ++
            "\" is missing required keys [\"clientID\" \"clientSecret\"]") ∧
    ((s.getData "clientID" ≠ "" ∧ s.getData "clientSecret" ≠ "") →
      validateSecret secrets ns name
        = .ok { clientID := s.getData "clientID",
                clientSecret := s.getData "clientSecret" } ∧
      ∀ n, validateSecret secrets ns name ≠ .error (.missingKeys n)) := by
  constructor
  · intro hmiss
    constructor
    · rcases hmiss with h1 | h1 <;> simp [validateSecret, hfound, htype, h1]
    · rfl
  · rintro ⟨h1, h2⟩
    have hok : validateSecret secrets ns name
        = .ok { clientID := s.getData "clientID",
                clientSecret := s.getData "clientSecret" } := by
      simp [validateSecret, hfound, htype, h1, h2]
    refine ⟨hok, ?_⟩
    intro n habs
    rw [hok] at habs
    exact Except.noConfusion habs

/-- Witness for the missing-keys error: a secret of the required type with
no data triggers the error listing both keys; the valid test secret does
not. -/
theorem secret_missing_keys_witness :
    (findSecret [keylessSecret] "test-namespace" "test-client-secret"
        = some keylessSecret) ∧
    (keylessSecret.secretType = oidcClientSecretType) ∧
    ((keylessSecret.getData "clientID" = "" ∨
        keylessSecret.getData "clientSecret" = "") →
      validateSecret [keylessSecret] "test-namespace" "test-client-secret"
          = .error (.missingKeys "test-client-secret") ∧
      (SecretErr.missingKeys "test-client-secret").message
        = "referenced Secret \"" ++ "test-client-secret" ++
            "\" is missing required keys [\"clientID\" \"clientSecret\"]") ∧
    (validateSecret [keylessSecret] "test-namespace" "test-client-secret"
        = .error (.missingKeys "test-client-secret")) :=
  ⟨rfl, rfl,
   (secret_missing_keys [keylessSecret] "test-namespace" "test-client-secret"
      keylessSecret rfl rfl).1,
   ((secret_missing_keys [keylessSecret] "test-namespace" "test-client-secret"
      keylessSecret rfl rfl).1 (Or.inl rfl)).1⟩

/-- C9 counterexample: looking up an absent secret in namespace
`test-namespace` produces the message `secret "test-client-secret" not
found`, which does not contain the namespace at all, so the message cannot
include the namespace-qualified secret name. -/
theorem secret_not_found_no_namespace :
    validateSecret [] "test-namespace" "test-client-secret"
        = .error (.notFound "test-client-secret") ∧
    (SecretErr.notFound "test-client-secret").message
        = "secret \"test-client-secret\" not found" ∧
    strContains (SecretErr.notFound "test-client-secret").message
        "test-namespace" = false :=
  ⟨rfl, rfl, by decide⟩

/-- C9 (amended): for every provider whose referenced secret does not
exist, the resolver fails with `SecretNotFound` and the failure message is
exactly `secret "<name>" not found` — it includes the referenced secret's
name, but not its namespace. -/
theorem secret_not_found_message (secrets : List Secret) (ns name : String)
    (h : findSecret secrets ns name = none) :
    validateSecret secrets ns name = .error (.notFound name) ∧
    (SecretErr.notFound name).message
      = "secret \"" ++ name ++ "\" not found" := by
  constructor
  · rw [validateSecret, h]
  · rfl

/-- Witness for the not-found message at the test fixture's secret name. -/
theorem secret_not_found_message_witness :
    (findSecret [] "test-namespace" "test-client-secret" = none) ∧
    (validateSecret [] "test-namespace" "test-client-secret"
        = .error (.notFound "test-client-secret") ∧
     (SecretErr.notFound "test-client-secret").message
        = "secret \"" ++ "test-client-secret" ++ "\" not found") :=
  ⟨rfl, secret_not_found_message [] "test-namespace" "test-client-secret" rfl⟩

/-- C10: for every secret that exists but whose declared type is not the
fixed required type `secrets.pinniped.dev/oidc-client`, the resolver fails
with `SecretWrongType` and the message names both the actual and the
required type in the form `referenced Secret "<name>" has wrong type
"<actual>" (should be "secrets.pinniped.dev/oidc-client")`. -/
theorem secret_wrong_type (secrets : List Secret) (ns name : String)
    (s : Secret) (hfound : findSecret secrets ns name = some s)
    (htype : s.secretType ≠ oidcClientSecretType) :
    validateSecret secrets ns name = .error (.wrongType name s.secretType) ∧
    (SecretErr.wrongType name s.secretType).message
      = "referenced Secret \"" ++ name ++ "\" has wrong type \"" ++
          s.secretType ++ "\" (should be \"secrets.pinniped.dev/oidc-client\")" := by
  constructor
  · simp [validateSecret, hfound, htype]
  · simp [SecretErr.message, oidcClientSecretType, String.append_assoc]

/-- Witness for the wrong-type error: the secret of declared type
`some-other-type` from the test. -/
theorem secret_wrong_type_witness :
    (findSecret [wrongTypeSecret] "test-namespace" "test-client-secret"
        = some wrongTypeSecret) ∧
    (wrongTypeSecret.secretType ≠ oidcClientSecretType) ∧
    (validateSecret [wrongTypeSecret] "test-namespace" "test-client-secret"
        = .error (.wrongType "test-client-secret" wrongTypeSecret.secretType) ∧
     (SecretErr.wrongType "test-client-secret" wrongTypeSecret.secretType).message
        = "referenced Secret \"" ++ "test-client-secret" ++
            "\" has wrong type \"" ++ wrongTypeSecret.secretType ++
            "\" (should be \"secrets.pinniped.dev/oidc-client\")") :=
  ⟨rfl, by decide,
   secret_wrong_type [wrongTypeSecret] "test-namespace" "test-client-secret"
     wrongTypeSecret rfl (by decide)⟩

end Pinniped
